import Mathlib

/-!
Shallow embedding of the zora-plugin repository (two elizaOS plugins:
a Zora coin-creation/trading plugin and a Polymarket prediction-market
plugin).  Environment variables are modelled as `Option String`
(JavaScript `process.env` lookups), external asynchronous calls as
`Except String α` outcomes (a thrown exception carries its message
string), and JSON values as an inductive `JsValue`.
-/

namespace ZoraPlugin

/-- JavaScript falsiness of an environment-variable lookup: `undefined`
(absent) and the empty string are falsy; every other string is truthy.
Mirrors `!apiKey`-style checks in the source. -/
def falsy : Option String → Bool
  | none => true
  | some s => s == ""

/-- `listHasPre pat s` : `pat` is a prefix of `s` (character lists). -/
def listHasPre : List Char → List Char → Bool
  | [], _ => true
  | _ :: _, [] => false
  | p :: ps, c :: cs => p == c && listHasPre ps cs

/-- `listHasSub pat s` : `pat` occurs as a contiguous substring of `s`.
Mirrors JavaScript `String.prototype.includes`. -/
def listHasSub (pat : List Char) : List Char → Bool
  | [] => pat.isEmpty
  | c :: cs => listHasPre pat (c :: cs) || listHasSub pat cs

/-- `strHasSubstr s pat` : JavaScript `s.includes(pat)`. -/
def strHasSubstr (s pat : String) : Bool :=
  listHasSub pat.toList s.toList

/-- ASCII lowercasing of one character (JavaScript `toLowerCase` on
the ASCII range, the only range occurring in chain names, URLs and
tool names here). -/
def jsLowerChar (c : Char) : Char :=
  if 'A' ≤ c && c ≤ 'Z' then Char.ofNat (c.toNat + 32) else c

/-- JavaScript `String.prototype.toLowerCase` (ASCII). -/
def jsToLower (s : String) : String :=
  String.mk (s.toList.map jsLowerChar)

/-- Whitespace as trimmed by JavaScript `String.prototype.trim`. -/
def jsWhitespace (c : Char) : Bool :=
  c == ' ' || c == '\t' || c == '\n' || c == '\r'

/-- JavaScript `String.prototype.trim`. -/
def jsTrim (s : String) : String :=
  String.mk (((s.toList.dropWhile jsWhitespace).reverse.dropWhile jsWhitespace).reverse)

/-- JavaScript `String.prototype.startsWith`. -/
def jsStartsWith (s pat : String) : Bool :=
  listHasPre pat.toList s.toList

/-- The environment configuration read by both plugins (`process.env`). -/
structure Env where
  ZORA_RPC_URL : Option String
  ZORA_PRIVATE_KEY : Option String
  ZORA_CHAIN : Option String
  PINATA_JWT : Option String
  PINATA_DEFAULT_IMAGE_CID : Option String
  POLYMARKET_API_KEY : Option String
  POLYMARKET_SECRET : Option String
  POLYMARKET_PASSPHRASE : Option String
  WALLET_PRIVATE_KEY : Option String
  RPC_PROVIDER_URL : Option String

/-- The two chains the Zora plugin can resolve (`base`, `baseSepolia`
from `viem/chains`). -/
inductive Chain where
  | base
  | baseSepolia
  deriving DecidableEq, Repr

/-- `src/provider.ts` line 27: the explicit `ZORA_CHAIN` override
(lowercased, absent treated as `''`) designates Base Sepolia. -/
def isSepoliaChainEnv (v : Option String) : Bool :=
  let s := jsToLower (v.getD "")
  s == "base-sepolia" || s == "basesepolia" || s == "sepolia"

/-- `src/provider.ts` line 28: the lowercased RPC URL hints at Base
Sepolia when it contains `"sepolia"` or `"84532"`. -/
def isSepoliaRpcUrl (rpcUrl : String) : Bool :=
  strHasSubstr (jsToLower rpcUrl) "sepolia" || strHasSubstr (jsToLower rpcUrl) "84532"

/-- `src/provider.ts` line 29: chain inference,
`isSepoliaEnv || isSepoliaRpc ? baseSepolia : base`. -/
def resolveZoraChain (chainEnv : Option String) (rpcUrl : String) : Chain :=
  if isSepoliaChainEnv chainEnv || isSepoliaRpcUrl rpcUrl then
    Chain.baseSepolia
  else
    Chain.base

/-- An account derived from a private key (`privateKeyToAccount`); only
its address is observed by this code. -/
structure Account where
  address : String
  deriving DecidableEq, Repr

/-- The Zora client bundle (`ZoraClients` in `src/provider.ts`); the
wallet/public clients carry no data observed by the plugin beyond the
resolved chain, so they are represented by it. -/
structure ZoraClients where
  account : Account
  chain : Chain
  deriving DecidableEq, Repr

/-- Error message thrown by `getZoraClients` on missing credentials. -/
def zoraCredsMsg : String :=
  "Missing required Zora credentials. Please set ZORA_RPC_URL and ZORA_PRIVATE_KEY environment variables."

/-- `getZoraClients` (`src/provider.ts` lines 12-56).  `pkToAccount`
models the external `privateKeyToAccount`, which may throw (its
exception propagates uncaught to the caller, as in the source). -/
def getZoraClients (pkToAccount : String → Except String Account) (env : Env) :
    Except String ZoraClients :=
  if falsy env.ZORA_RPC_URL || falsy env.ZORA_PRIVATE_KEY then
    Except.error zoraCredsMsg
  else
    let chain := resolveZoraChain env.ZORA_CHAIN (env.ZORA_RPC_URL.getD "")
    match pkToAccount (env.ZORA_PRIVATE_KEY.getD "") with
    | Except.error e => Except.error e
    | Except.ok account => Except.ok { account := account, chain := chain }

/-- A JavaScript JSON-serializable value, including `bigint`
(arbitrary-precision integer), as passed to `JSON.stringify`. -/
inductive JsValue where
  | null
  | bool (b : Bool)
  | num (s : String)
  | str (s : String)
  | bigint (n : Int)
  | arr (xs : List JsValue)
  | obj (fields : List (String × JsValue))

/-- A Polymarket on-chain tool as returned by `getOnChainTools`.  The
handler observes its (optional) `name` and invokes it
(`tool.execute?.(params) || tool.call?.(params)`, collapsed here into a
single invocation outcome `exec`, since the claims observe only whether
the invocation throws and what it returns). -/
structure Tool where
  name : Option String
  exec : Except String JsValue

/-- The Polymarket client bundle returned by `getPolymarketClient`. -/
structure PolyClient where
  account : Account
  tools : List Tool

/-- Outcomes of the external construction calls made inside
`getPolymarketClient`'s `try` block: `privateKeyToAccount` and
`getOnChainTools`. -/
structure PolyBootstrapEnv where
  pkToAccount : String → Except String Account
  getTools : Except String (List Tool)

/-- Error message for the missing Polymarket API-credential group. -/
def polyApiCredsMsg : String :=
  "Missing required Polymarket API credentials. Please set POLYMARKET_API_KEY, POLYMARKET_SECRET, and POLYMARKET_PASSPHRASE environment variables."

/-- Error message for the missing Polymarket wallet-configuration group. -/
def polyWalletMsg : String :=
  "Missing required wallet configuration. Please set WALLET_PRIVATE_KEY and RPC_PROVIDER_URL environment variables."

/-- `getPolymarketClient` (`src/unnamed/part_000` lines 9-53).  The
second component counts attempts at client construction (entries into
the `try` block), so `0` means no client construction was even started.
A construction failure is wrapped as in the source:
`Failed to initialize Polymarket client: ${error.message || 'Unknown error'}`. -/
def getPolymarketClient (benv : PolyBootstrapEnv) (env : Env) :
    Except String PolyClient × Nat :=
  if falsy env.POLYMARKET_API_KEY || falsy env.POLYMARKET_SECRET ||
      falsy env.POLYMARKET_PASSPHRASE then
    (Except.error polyApiCredsMsg, 0)
  else if falsy env.WALLET_PRIVATE_KEY || falsy env.RPC_PROVIDER_URL then
    (Except.error polyWalletMsg, 0)
  else
    let built : Except String PolyClient := do
      let account ← benv.pkToAccount (env.WALLET_PRIVATE_KEY.getD "")
      let tools ← benv.getTools
      pure { account := account, tools := tools }
    match built with
    | Except.ok c => (Except.ok c, 1)
    | Except.error e =>
      (Except.error ("Failed to initialize Polymarket client: " ++
        (if e == "" then "Unknown error" else e)), 1)

/-- The predicate of the `tools.find(...)` call in the
GET_POLYMARKET_EVENTS handler: the tool's name (optional chaining: an
absent name never matches) contains `'event'` or `'market'`
case-insensitively. -/
def eventToolPred (t : Tool) : Bool :=
  match t.name with
  | none => false
  | some n => strHasSubstr (jsToLower n) "event" || strHasSubstr (jsToLower n) "market"

/-- `tools.find(tool => ...)` (`src/unnamed/part_000` lines 115-118):
the first tool in list order satisfying `eventToolPred`. -/
def findEventTool (tools : List Tool) : Option Tool :=
  tools.find? eventToolPred

/-- The tool-lookup step of the GET_POLYMARKET_EVENTS handler
(`src/unnamed/part_000` lines 115-122): throws
`"Events tool not found"` when no tool matches. -/
def toolLookupStep (tools : List Tool) : Except String Tool :=
  match findEventTool tools with
  | some t => Except.ok t
  | none => Except.error "Events tool not found"

/-- Minimal JSON string quoting (escapes backslash and double quote;
control-character escaping is irrelevant to every claim). -/
def jsQuote (s : String) : String :=
  "\"" ++ String.join (s.toList.map fun c =>
    if c == '\\' then "\\\\" else if c == '"' then "\\\"" else String.singleton c) ++ "\""

/-- The message of the `TypeError` thrown by `JSON.stringify` on a
`bigint` value. -/
def bigintTypeError : String :=
  "TypeError: Do not know how to serialize a BigInt"

mutual

/-- JavaScript `JSON.stringify` (without replacer): throws a
`TypeError` on any `bigint` anywhere in the value; otherwise produces a
JSON text.  (Pretty-printing whitespace, as in the Polymarket handler's
`JSON.stringify(result, null, 2)`, is elided: it affects neither
throwing nor precision.) -/
def jsonStr : JsValue → Except String String
  | JsValue.null => Except.ok "null"
  | JsValue.bool b => Except.ok (cond b "true" "false")
  | JsValue.num s => Except.ok s
  | JsValue.str s => Except.ok (jsQuote s)
  | JsValue.bigint _ => Except.error bigintTypeError
  | JsValue.arr xs => do
      let parts ← jsonStrList xs
      Except.ok ("[" ++ String.intercalate "," parts ++ "]")
  | JsValue.obj fs => do
      let parts ← jsonStrFields fs
      Except.ok ("\x7b" ++ String.intercalate "," parts ++ "\x7d")

/-- Serialize the elements of a JSON array. -/
def jsonStrList : List JsValue → Except String (List String)
  | [] => Except.ok []
  | v :: vs => do
      let s ← jsonStr v
      let ss ← jsonStrList vs
      Except.ok (s :: ss)

/-- Serialize the fields of a JSON object. -/
def jsonStrFields : List (String × JsValue) → Except String (List String)
  | [] => Except.ok []
  | (k, v) :: fs => do
      let s ← jsonStr v
      let ss ← jsonStrFields fs
      Except.ok ((jsQuote k ++ ":" ++ s) :: ss)

end

mutual

/-- The effect of `safeStringify`'s replacer
(`(_key, val) => typeof val === 'bigint' ? val.toString() : val`,
`src/src/actions.ts` lines 26-28): every `bigint` anywhere in the value
is replaced by its exact decimal string before serialization. -/
def replaceBigInt : JsValue → JsValue
  | JsValue.bigint n => JsValue.str (toString n)
  | JsValue.arr xs => JsValue.arr (replaceBigIntList xs)
  | JsValue.obj fs => JsValue.obj (replaceBigIntFields fs)
  | v => v

/-- `replaceBigInt` on the elements of an array. -/
def replaceBigIntList : List JsValue → List JsValue
  | [] => []
  | v :: vs => replaceBigInt v :: replaceBigIntList vs

/-- `replaceBigInt` on the fields of an object. -/
def replaceBigIntFields : List (String × JsValue) → List (String × JsValue)
  | [] => []
  | (k, v) :: fs => (k, replaceBigInt v) :: replaceBigIntFields fs

end

/-- `safeStringify` (`src/src/actions.ts` lines 26-28):
`JSON.stringify(value, replacer)` with the bigint-to-string replacer. -/
def safeStringify (v : JsValue) : Except String String :=
  jsonStr (replaceBigInt v)

/-- The parameters `ensureMetadataUri` receives
(`src/src/actions.ts` line 43). -/
structure MetaParams where
  name : String
  symbol : String
  uri : Option String
  image : Option String
  description : Option String

/-- The response of the single Pinata `pinJSONToIPFS` request:
`ok`/`status`/`statusText`, the body text read on failure, and the
parsed JSON's optional `IpfsHash` field. -/
structure PinResponse where
  ok : Bool
  status : Nat
  statusText : String
  bodyText : String
  ipfsHash : Option String

/-- The JSON metadata document assembled by `ensureMetadataUri`
(`src/src/actions.ts` lines 60-64): name, description, optional image. -/
structure Metadata where
  name : String
  description : String
  image : Option String
  deriving DecidableEq, Repr

/-- The body of a Pinata pin request (`src/src/actions.ts` lines
66-69): the metadata document plus a pin name
`zora-coin-${symbol}-${Date.now()}`. -/
structure PinRequest where
  pinataContent : Metadata
  pinName : String
  deriving DecidableEq, Repr

/-- Error message thrown when no plausible URI is supplied and
`PINATA_JWT` is not set (`src/src/actions.ts` line 53). -/
def pinataJwtMissingMsg : String :=
  "Missing PINATA_JWT. Cannot auto-generate metadata URI. Provide a valid uri or set PINATA_JWT to enable auto-pinning."

/-- `src/src/actions.ts` line 47: the trimmed supplied URI is used
verbatim when it is truthy and starts with `ipfs://`, `http://` or
`https://`.  (`none` models an absent `params.uri`, for which optional
chaining leaves `provided` undefined, hence falsy.) -/
def plausibleUri : Option String → Bool
  | none => false
  | some p =>
    p != "" &&
      (jsStartsWith p "ipfs://" || jsStartsWith p "http://" || jsStartsWith p "https://")

/-- `ensureMetadataUri` (`src/src/actions.ts` lines 41-91).  `now`
models `Date.now()`; `resp` the outcome of the single `runtime.fetch`
to Pinata.  Returns the resolution outcome paired with the list of pin
requests issued (so `[]` means the pinning service was never called).
Line 86 checks `!json.IpfsHash`, JavaScript falsiness: an absent and a
present-but-empty `IpfsHash` are both rejected, rendered by `falsy`. -/
def ensureMetadataUri (env : Env) (params : MetaParams) (resp : PinResponse)
    (now : Nat) : Except String String × List PinRequest :=
  let provided := params.uri.map jsTrim
  if plausibleUri provided then
    (Except.ok (provided.getD ""), [])
  else if falsy env.PINATA_JWT then
    (Except.error pinataJwtMissingMsg, [])
  else
    let defaultImageCid := env.PINATA_DEFAULT_IMAGE_CID
    let trimmedImage := params.image.map jsTrim
    let image : Option String :=
      if falsy trimmedImage then
        if falsy defaultImageCid then none
        else some ("ipfs://" ++ defaultImageCid.getD "")
      else trimmedImage
    let trimmedDescription := params.description.map jsTrim
    let description :=
      if falsy trimmedDescription then "Creator coin for " ++ params.name
      else trimmedDescription.getD ""
    let request : PinRequest :=
      { pinataContent := { name := params.name, description := description, image := image }
        pinName := "zora-coin-" ++ params.symbol ++ "-" ++ toString now }
    if !resp.ok then
      (Except.error ("Pinata pinJSONToIPFS failed: " ++ toString resp.status ++ " " ++
        resp.statusText ++ " " ++ resp.bodyText), [request])
    else if falsy resp.ipfsHash then
      (Except.error "Pinata response missing IpfsHash", [request])
    else
      (Except.ok ("ipfs://" ++ resp.ipfsHash.getD ""), [request])

/-- The `content` object passed to a handler callback.  Only its
`error` field is distinguished (present exactly on the error path);
the success-path fields (`transactionHash`, `coinAddress`, raw tool
result, ...) carry no `error` key. -/
structure CallbackContent where
  error : Option String
  deriving DecidableEq, Repr

/-- One invocation of the optional `callback` with `{text, content}`. -/
structure CallbackInvocation where
  text : String
  content : CallbackContent
  deriving DecidableEq, Repr

/-- The observable outcome of one handler run: the list of callback
invocations performed (empty when no callback was provided) and the
returned boolean.  Totality of the handler functions below renders the
fact that no exception escapes a handler. -/
structure HandlerOutcome where
  invocations : List CallbackInvocation
  result : Bool
  deriving DecidableEq, Repr

/-- The uniform `try`/`catch` shape shared by all three handlers: on
success, invoke the callback (if provided) once with the generated
response text and return `true`; on any exception `e` from the steps,
invoke the callback (if provided) once with `errPrefix ++ e` as text
and `{error: e}` as content, and return `false`.  The host-provided
callback itself is assumed not to throw. -/
def runHandler (errPrefix : String) (cbProvided : Bool)
    (body : Except String String) : HandlerOutcome :=
  match body with
  | Except.ok text =>
    { invocations := if cbProvided then [{ text := text, content := { error := none } }] else []
      result := true }
  | Except.error e =>
    { invocations :=
        if cbProvided then [{ text := errPrefix ++ e, content := { error := some e } }] else []
      result := false }

/-- The coin-creation parameters extracted by `generateObject` against
the zod schema (`src/src/actions.ts` lines 118-127). -/
structure CreateCoinParams where
  name : String
  symbol : String
  uri : Option String
  image : Option String
  description : Option String
  payoutRecipient : String
  platformReferrer : Option String
  currency : Option String

/-- Outcomes of the external calls made by the CREATE_COIN handler's
`try` block, in step order.  Conversation state is opaque (`Unit`). -/
structure CreateCoinSteps where
  composeState : Except String Unit
  updateState : Except String Unit
  genParams : Except String CreateCoinParams
  pinResponse : PinResponse
  now : Nat
  createCoin : String → Except String JsValue
  genResponse : Except String String

/-- The `try`-block of the CREATE_COIN handler (`src/src/actions.ts`
lines 107-172): bootstrap, state, parameter extraction, metadata-URI
resolution, the SDK `createCoin` call (receiving the resolved URI),
serialization of the result into the response context via
`safeStringify`, and response generation.  Produces the response text
passed to the callback. -/
def createCoinBody (pk : String → Except String Account) (env : Env)
    (st : CreateCoinSteps) : Except String String := do
  let _clients ← getZoraClients pk env
  let _ ← st.composeState
  let _ ← st.updateState
  let params ← st.genParams
  let (uriRes, _pins) := ensureMetadataUri env
    { name := params.name, symbol := params.symbol, uri := params.uri
      image := params.image, description := params.description }
    st.pinResponse st.now
  let resolvedUri ← uriRes
  let result ← st.createCoin resolvedUri
  let _serialized ← safeStringify result
  let response ← st.genResponse
  pure response

/-- The CREATE_COIN handler (`src/src/actions.ts` lines 100-181). -/
def createCoinHandler (pk : String → Except String Account) (env : Env)
    (st : CreateCoinSteps) (cbProvided : Bool) : HandlerOutcome :=
  runHandler "Error creating coin: " cbProvided (createCoinBody pk env st)

/-- The trade parameters extracted by `generateObject` against the zod
schema (`src/src/actions.ts` lines 242-248).  `sellType`/`buyType` are
fixed enum defaults and `slippage` a number; none is observed by any
claim, so only the two string fields appear. -/
structure TradeCoinParams where
  coinAddress : String
  amountIn : String

/-- Outcomes of the external calls made by the TRADE_COIN handler's
`try` block, in step order.  `parseEther` models viem's parser (throws
on malformed decimal strings); its `Int` result is the wei amount. -/
structure TradeCoinSteps where
  composeState : Except String Unit
  updateState : Except String Unit
  genParams : Except String TradeCoinParams
  parseEther : String → Except String Int
  tradeCoin : Except String JsValue
  genResponse : Except String String

/-- The `try`-block of the TRADE_COIN handler (`src/src/actions.ts`
lines 231-282). -/
def tradeCoinBody (pk : String → Except String Account) (env : Env)
    (st : TradeCoinSteps) : Except String String := do
  let _clients ← getZoraClients pk env
  let _ ← st.composeState
  let _ ← st.updateState
  let params ← st.genParams
  let _amountIn ← st.parseEther params.amountIn
  let result ← st.tradeCoin
  let _serialized ← safeStringify result
  let response ← st.genResponse
  pure response

/-- The TRADE_COIN handler (`src/src/actions.ts` lines 224-291). -/
def tradeCoinHandler (pk : String → Except String Account) (env : Env)
    (st : TradeCoinSteps) (cbProvided : Bool) : HandlerOutcome :=
  runHandler "Error trading coin: " cbProvided (tradeCoinBody pk env st)

/-- Outcomes of the external calls made by the GET_POLYMARKET_EVENTS
handler's `try` block, in step order.  The extracted
query/limit/active parameter object is opaque (`Unit`). -/
structure PolyEventsSteps where
  composeState : Except String Unit
  updateState : Except String Unit
  genParams : Except String Unit
  genResponse : Except String String

/-- The `try`-block of the GET_POLYMARKET_EVENTS handler
(`src/unnamed/part_000` lines 82-135): bootstrap, state, parameter
extraction, event/market tool lookup, tool invocation, serialization
of the result into the response context via plain `JSON.stringify`
(no bigint replacer), and response generation. -/
def polyEventsBody (benv : PolyBootstrapEnv) (env : Env)
    (st : PolyEventsSteps) : Except String String := do
  let client ← (getPolymarketClient benv env).1
  let _ ← st.composeState
  let _ ← st.updateState
  let _ ← st.genParams
  let tool ← toolLookupStep client.tools
  let result ← tool.exec
  let _serialized ← jsonStr result
  let response ← st.genResponse
  pure response

/-- The GET_POLYMARKET_EVENTS handler (`src/unnamed/part_000` lines
82-139); its `catch` delegates to `handleError`, whose error text is
`Error executing ${actionName}: ${errorMessage}`. -/
def polyEventsHandler (benv : PolyBootstrapEnv) (env : Env)
    (st : PolyEventsSteps) (cbProvided : Bool) : HandlerOutcome :=
  runHandler "Error executing GET_POLYMARKET_EVENTS: " cbProvided (polyEventsBody benv env st)

/-- The names of the Zora plugin's fixed action descriptors
(`getZoraActions`, `src/src/actions.ts` lines 37-39); the descriptors
themselves are static records whose construction cannot throw. -/
def zoraActionNames : List String := ["CREATE_COIN", "TRADE_COIN"]

/-- `initializeActions` of the Zora plugin (`src/src/index.ts` lines
13-34): with either credential falsy it returns `[]`; otherwise the
fixed action list.  The surrounding `catch` (which would also return
`[]`) is unreachable because `getZoraActions` only builds static
records; totality here renders "never fails plugin load". -/
def initializeZoraActions (env : Env) : List String :=
  if falsy env.ZORA_RPC_URL || falsy env.ZORA_PRIVATE_KEY then []
  else zoraActionNames

/-- The names of the Polymarket plugin's fixed action descriptors
(`getPolymarketActions`, `src/unnamed/part_000` lines 75-145). -/
def polyActionNames : List String := ["GET_POLYMARKET_EVENTS"]

/-- `initializeActions` of the Polymarket plugin
(`src/unnamed/part_000` lines 242-268). -/
def initializePolymarketActions (env : Env) : List String :=
  if falsy env.POLYMARKET_API_KEY || falsy env.POLYMARKET_SECRET ||
      falsy env.POLYMARKET_PASSPHRASE then []
  else if falsy env.WALLET_PRIVATE_KEY || falsy env.RPC_PROVIDER_URL then []
  else polyActionNames

/-- `zoraProvider.get` (`src/src/provider.ts` lines 58-68): a total
function — the `try`/`catch` converts any bootstrap exception into an
error-describing string. -/
def zoraProviderGet (pk : String → Except String Account) (env : Env) : String :=
  match getZoraClients pk env with
  | Except.ok clients => "Zora Wallet Address: " ++ clients.account.address
  | Except.error e => "Error initializing Zora wallet: " ++ e

/-- `walletProvider.get` of the Polymarket plugin
(`src/unnamed/part_000` lines 55-65): same total shape. -/
def walletProviderGet (benv : PolyBootstrapEnv) (env : Env) : String :=
  match (getPolymarketClient benv env).1 with
  | Except.ok c => "Polymarket Wallet Address: " ++ c.account.address
  | Except.error e => "Error initializing Polymarket wallet: " ++ e

/-! ### Concrete fixtures used by witness theorems -/

/-- An environment with every variable absent. -/
def envEmpty : Env := ⟨none, none, none, none, none, none, none, none, none, none⟩

/-- An environment with every required variable of both plugins set. -/
def envAllSet : Env :=
  ⟨some "https://mainnet.base.org", some "0xkey", none, none, none,
    some "pk", some "sec", some "pass", some "0xwallet", some "https://polygon-rpc.com"⟩

/-- An environment with the Polymarket API group set but the wallet group absent. -/
def envApiOnly : Env :=
  ⟨none, none, none, none, none, some "pk", some "sec", some "pass", none, none⟩

/-- An environment with Zora credentials and a Pinata credential set. -/
def envJwtW : Env := ⟨some "https://mainnet.base.org", some "0xkey", none, some "jwt",
  none, none, none, none, none, none⟩

/-- A key-derivation outcome that always succeeds. -/
def pkOkW : String → Except String Account := fun _ => Except.ok ⟨"0xACC"⟩

/-- Polymarket construction outcomes that succeed with no tools. -/
def benvW : PolyBootstrapEnv := ⟨pkOkW, Except.ok []⟩

/-- A successful Pinata pin response carrying hash `HASH`. -/
def pinRespOkW : PinResponse := ⟨true, 200, "OK", "", some "HASH"⟩

/-- A pin response whose `IpfsHash` is present but empty (falsy). -/
def pinRespEmptyHashW : PinResponse := ⟨true, 200, "OK", "", some ""⟩

/-- CREATE_COIN step outcomes in which every external call succeeds. -/
def stCreateW : CreateCoinSteps :=
  { composeState := Except.ok ()
    updateState := Except.ok ()
    genParams := Except.ok ⟨"N", "S", some "ipfs://abc", none, none, "0xP", none, none⟩
    pinResponse := pinRespOkW
    now := 0
    createCoin := fun _ => Except.ok JsValue.null
    genResponse := Except.ok "done" }

/-- TRADE_COIN step outcomes in which every external call succeeds. -/
def stTradeW : TradeCoinSteps :=
  { composeState := Except.ok ()
    updateState := Except.ok ()
    genParams := Except.ok ⟨"0xC", "0.001"⟩
    parseEther := fun _ => Except.ok 1000000000000000
    tradeCoin := Except.ok JsValue.null
    genResponse := Except.ok "done" }

/-- GET_POLYMARKET_EVENTS step outcomes in which every external call succeeds. -/
def stPolyW : PolyEventsSteps := ⟨Except.ok (), Except.ok (), Except.ok (), Except.ok "done"⟩

/-- Coin parameters whose supplied uri matches no accepted scheme. -/
def paramsImplausibleW : CreateCoinParams :=
  ⟨"N", "S", some "notaurl", none, none, "0xP", none, none⟩

/-- CREATE_COIN step outcomes extracting `paramsImplausibleW`. -/
def stImplausibleW : CreateCoinSteps :=
  { composeState := Except.ok ()
    updateState := Except.ok ()
    genParams := Except.ok paramsImplausibleW
    pinResponse := pinRespOkW
    now := 0
    createCoin := fun _ => Except.ok JsValue.null
    genResponse := Except.ok "done" }

/-- Metadata parameters supplying a plausible (padded) `ipfs://` uri. -/
def paramsPlausibleW : MetaParams := ⟨"N", "S", some " ipfs://abc ", none, none⟩

/-- Metadata parameters supplying no uri. -/
def paramsNoUriW : MetaParams := ⟨"N", "S", none, none, none⟩

/-- A tool whose name matches neither `event` nor `market`. -/
def toolPlainW : Tool := ⟨some "getBalance", Except.ok JsValue.null⟩

/-- A tool whose name contains `market`. -/
def toolMarketW : Tool := ⟨some "getMarkets", Except.ok JsValue.null⟩

/-- A tool with no name at all. -/
def toolNamelessW : Tool := ⟨none, Except.ok JsValue.null⟩

/-- An SDK result with a bigint field beyond double precision. -/
def bigResultW : JsValue := JsValue.obj [("balance", JsValue.bigint (2 ^ 70))]

/-- A matching market tool whose invocation returns `bigResultW`. -/
def toolBigW : Tool := ⟨some "getMarkets", Except.ok bigResultW⟩

/-- Polymarket construction outcomes exposing only `toolBigW`. -/
def benvBigW : PolyBootstrapEnv := ⟨pkOkW, Except.ok [toolBigW]⟩

/-! ### Helper lemmas -/

/-- Reduction of bind on a successful `Except`. -/
theorem exceptOkBind {e a b : Type} (x : a) (f : a → Except e b) :
    (Except.ok x >>= f) = f x := rfl

/-- Reduction of bind on a failed `Except`. -/
theorem exceptErrBind {e a b : Type} (err : e) (f : a → Except e b) :
    ((Except.error err : Except e a) >>= f) = Except.error err := rfl

/-- A string with a non-empty left part is non-empty. -/
theorem append_ne_empty_of_left (p e : String) (hp : p.data ≠ []) : p ++ e ≠ "" := by
  intro h
  apply hp
  have h2 : (p ++ e).data = ("" : String).data := congrArg String.data h
  rw [String.data_append] at h2
  exact (List.append_eq_nil.mp h2).1

mutual

/-- After the bigint replacer has run, serialization always succeeds. -/
theorem jsonStr_rb_ok : (v : JsValue) → ∃ s, jsonStr (replaceBigInt v) = Except.ok s
  | JsValue.null => ⟨_, rfl⟩
  | JsValue.bool b => ⟨_, rfl⟩
  | JsValue.num s => ⟨_, rfl⟩
  | JsValue.str s => ⟨_, rfl⟩
  | JsValue.bigint n => ⟨_, rfl⟩
  | JsValue.arr xs => by
      obtain ⟨ss, h⟩ := jsonStrList_rb_ok xs
      refine ⟨"[" ++ String.intercalate "," ss ++ "]", ?_⟩
      simp [replaceBigInt, jsonStr, h, exceptOkBind]
  | JsValue.obj fs => by
      obtain ⟨ss, h⟩ := jsonStrFields_rb_ok fs
      refine ⟨"\x7b" ++ String.intercalate "," ss ++ "\x7d", ?_⟩
      simp [replaceBigInt, jsonStr, h, exceptOkBind]

/-- Array-element case of `jsonStr_rb_ok`. -/
theorem jsonStrList_rb_ok : (xs : List JsValue) →
    ∃ ss, jsonStrList (replaceBigIntList xs) = Except.ok ss
  | [] => ⟨_, rfl⟩
  | v :: vs => by
      obtain ⟨s, h1⟩ := jsonStr_rb_ok v
      obtain ⟨ss, h2⟩ := jsonStrList_rb_ok vs
      refine ⟨s :: ss, ?_⟩
      simp [replaceBigIntList, jsonStrList, h1, h2, exceptOkBind]

/-- Object-field case of `jsonStr_rb_ok`. -/
theorem jsonStrFields_rb_ok : (fs : List (String × JsValue)) →
    ∃ ss, jsonStrFields (replaceBigIntFields fs) = Except.ok ss
  | [] => ⟨_, rfl⟩
  | (k, v) :: fs => by
      obtain ⟨s, h1⟩ := jsonStr_rb_ok v
      obtain ⟨ss, h2⟩ := jsonStrFields_rb_ok fs
      refine ⟨(jsQuote k ++ ":" ++ s) :: ss, ?_⟩
      simp [replaceBigIntFields, jsonStrFields, h1, h2, exceptOkBind]

end

/-! ### Claim theorems -/

/-- C1: for every action handler (CREATE_COIN, TRADE_COIN,
GET_POLYMARKET_EVENTS) and every exception raised in its steps, the
exception is caught inside the handler: the callback, when provided,
is invoked exactly once, with non-empty text and a content object
whose error field equals the message of the exception, and the handler
returns false.  No exception propagates to the caller: each handler is
a total function into `HandlerOutcome`. -/
theorem handler_error_containment :
    (∀ pk env st cb e, createCoinBody pk env st = Except.error e →
      createCoinHandler pk env st cb =
        { invocations :=
            if cb then
              [{ text := "Error creating coin: " ++ e, content := { error := some e } }]
            else []
          result := false } ∧
      ("Error creating coin: " ++ e) ≠ "") ∧
    (∀ pk env st cb e, tradeCoinBody pk env st = Except.error e →
      tradeCoinHandler pk env st cb =
        { invocations :=
            if cb then
              [{ text := "Error trading coin: " ++ e, content := { error := some e } }]
            else []
          result := false } ∧
      ("Error trading coin: " ++ e) ≠ "") ∧
    (∀ benv env st cb e, polyEventsBody benv env st = Except.error e →
      polyEventsHandler benv env st cb =
        { invocations :=
            if cb then
              [{ text := "Error executing GET_POLYMARKET_EVENTS: " ++ e,
                 content := { error := some e } }]
            else []
          result := false } ∧
      ("Error executing GET_POLYMARKET_EVENTS: " ++ e) ≠ "") := by
  refine ⟨?_, ?_, ?_⟩
  · intro pk env st cb e h
    exact ⟨by simp [createCoinHandler, runHandler, h],
      append_ne_empty_of_left _ _ (by decide)⟩
  · intro pk env st cb e h
    exact ⟨by simp [tradeCoinHandler, runHandler, h],
      append_ne_empty_of_left _ _ (by decide)⟩
  · intro benv env st cb e h
    exact ⟨by simp [polyEventsHandler, runHandler, h],
      append_ne_empty_of_left _ _ (by decide)⟩

/-- C1 witness: each of the three handler bodies fails concretely on
missing credentials and the handler reports it through one error
callback invocation and a false return. -/
theorem handler_error_containment_witness :
    createCoinBody pkOkW envEmpty stCreateW = Except.error zoraCredsMsg ∧
    createCoinHandler pkOkW envEmpty stCreateW true =
      { invocations := [{ text := "Error creating coin: " ++ zoraCredsMsg,
                          content := { error := some zoraCredsMsg } }]
        result := false } ∧
    tradeCoinBody pkOkW envEmpty stTradeW = Except.error zoraCredsMsg ∧
    tradeCoinHandler pkOkW envEmpty stTradeW true =
      { invocations := [{ text := "Error trading coin: " ++ zoraCredsMsg,
                          content := { error := some zoraCredsMsg } }]
        result := false } ∧
    polyEventsBody benvW envEmpty stPolyW = Except.error polyApiCredsMsg ∧
    polyEventsHandler benvW envEmpty stPolyW true =
      { invocations := [{ text := "Error executing GET_POLYMARKET_EVENTS: " ++ polyApiCredsMsg,
                          content := { error := some polyApiCredsMsg } }]
        result := false } :=
  ⟨rfl,
    by simpa using
      (handler_error_containment.1 pkOkW envEmpty stCreateW true zoraCredsMsg rfl).1,
    rfl,
    by simpa using
      (handler_error_containment.2.1 pkOkW envEmpty stTradeW true zoraCredsMsg rfl).1,
    rfl,
    by simpa using
      (handler_error_containment.2.2 benvW envEmpty stPolyW true polyApiCredsMsg rfl).1⟩

/-- C2: metadata-URI resolution.  A supplied uri whose trimmed form
starts with `ipfs://`, `http://` or `https://` is returned (trimmed)
with no pin request; with no such uri and a falsy `PINATA_JWT` the
resolution fails with the fixed message before any pin request; with
no such uri and a truthy `PINATA_JWT` exactly one pin request is made,
a successful response with a falsy (absent or empty) `IpfsHash` is an
error, and on a successful response carrying a non-empty `IpfsHash`
the returned content identifier is prefixed with `ipfs://`. -/
theorem metadata_uri_resolution :
    (∀ env params resp now u, params.uri = some u →
      plausibleUri (some (jsTrim u)) = true →
      ensureMetadataUri env params resp now = (Except.ok (jsTrim u), [])) ∧
    (∀ env params resp now, plausibleUri (params.uri.map jsTrim) = false →
      falsy env.PINATA_JWT = true →
      ensureMetadataUri env params resp now = (Except.error pinataJwtMissingMsg, [])) ∧
    (∀ env params resp now, plausibleUri (params.uri.map jsTrim) = false →
      falsy env.PINATA_JWT = false →
      (ensureMetadataUri env params resp now).2.length = 1 ∧
      (resp.ok = true → falsy resp.ipfsHash = true →
        (ensureMetadataUri env params resp now).1 =
          Except.error "Pinata response missing IpfsHash") ∧
      (∀ h, resp.ok = true → resp.ipfsHash = some h → h ≠ "" →
        (ensureMetadataUri env params resp now).1 = Except.ok ("ipfs://" ++ h))) := by
  refine ⟨?_, ?_, ?_⟩
  · intro env params resp now u h1 h2
    simp [ensureMetadataUri, h1, h2]
  · intro env params resp now h1 h2
    simp [ensureMetadataUri, h1, h2]
  · intro env params resp now h1 h2
    obtain ⟨ok, status, statusText, bodyText, ipfsHash⟩ := resp
    refine ⟨?_, ?_, ?_⟩
    · cases ok <;> cases hf : falsy ipfsHash <;> simp [ensureMetadataUri, h1, h2, hf]
    · intro hok hfal
      cases hok
      simp only at hfal
      simp [ensureMetadataUri, h1, h2, hfal]
    · intro h hok hhash hne
      cases hok
      simp only at hhash
      subst hhash
      have hfh : falsy (some h) = false := by simp [falsy, hne]
      simp [ensureMetadataUri, h1, h2, hfh]

/-- C2 witness: the resolution branches at concrete inputs, including
a present-but-empty `IpfsHash` rejected as missing. -/
theorem metadata_uri_resolution_witness :
    paramsPlausibleW.uri = some " ipfs://abc " ∧
    plausibleUri (some (jsTrim " ipfs://abc ")) = true ∧
    ensureMetadataUri envEmpty paramsPlausibleW pinRespOkW 0 = (Except.ok "ipfs://abc", []) ∧
    falsy envEmpty.PINATA_JWT = true ∧
    ensureMetadataUri envEmpty paramsNoUriW pinRespOkW 0 =
      (Except.error pinataJwtMissingMsg, []) ∧
    falsy envJwtW.PINATA_JWT = false ∧
    (ensureMetadataUri envJwtW paramsNoUriW pinRespOkW 0).2.length = 1 ∧
    (ensureMetadataUri envJwtW paramsNoUriW pinRespOkW 0).1 = Except.ok ("ipfs://" ++ "HASH") ∧
    falsy pinRespEmptyHashW.ipfsHash = true ∧
    (ensureMetadataUri envJwtW paramsNoUriW pinRespEmptyHashW 0).1 =
      Except.error "Pinata response missing IpfsHash" :=
  ⟨rfl, by decide,
    by simpa using
      metadata_uri_resolution.1 envEmpty paramsPlausibleW pinRespOkW 0 " ipfs://abc " rfl
        (by decide),
    by decide,
    metadata_uri_resolution.2.1 envEmpty paramsNoUriW pinRespOkW 0 (by decide) (by decide),
    by decide,
    (metadata_uri_resolution.2.2 envJwtW paramsNoUriW pinRespOkW 0 (by decide) (by decide)).1,
    (metadata_uri_resolution.2.2 envJwtW paramsNoUriW pinRespOkW 0 (by decide) (by decide)).2.2
      "HASH" rfl rfl (by decide),
    by decide,
    (metadata_uri_resolution.2.2 envJwtW paramsNoUriW pinRespEmptyHashW 0 (by decide)
      (by decide)).2.1 rfl (by decide)⟩

/-- C3: with any required credential missing, bootstrap fails with the
message naming exactly the missing group and constructs no client (the
construction counter stays 0 for Polymarket; Zora returns an error
with no bundle).  The Polymarket API group is checked first, naming
all three variables; the wallet group second.  The trailing conjuncts
verify each message names precisely the variables of its own group. -/
theorem bootstrap_missing_credentials :
    (∀ benv env,
      (falsy env.POLYMARKET_API_KEY || falsy env.POLYMARKET_SECRET ||
        falsy env.POLYMARKET_PASSPHRASE) = true →
      getPolymarketClient benv env = (Except.error polyApiCredsMsg, 0)) ∧
    (∀ benv env,
      (falsy env.POLYMARKET_API_KEY || falsy env.POLYMARKET_SECRET ||
        falsy env.POLYMARKET_PASSPHRASE) = false →
      (falsy env.WALLET_PRIVATE_KEY || falsy env.RPC_PROVIDER_URL) = true →
      getPolymarketClient benv env = (Except.error polyWalletMsg, 0)) ∧
    (∀ pk env,
      (falsy env.ZORA_RPC_URL || falsy env.ZORA_PRIVATE_KEY) = true →
      getZoraClients pk env = Except.error zoraCredsMsg) ∧
    (strHasSubstr polyApiCredsMsg "POLYMARKET_API_KEY" = true ∧
      strHasSubstr polyApiCredsMsg "POLYMARKET_SECRET" = true ∧
      strHasSubstr polyApiCredsMsg "POLYMARKET_PASSPHRASE" = true ∧
      strHasSubstr polyApiCredsMsg "WALLET_PRIVATE_KEY" = false ∧
      strHasSubstr polyApiCredsMsg "RPC_PROVIDER_URL" = false) ∧
    (strHasSubstr polyWalletMsg "WALLET_PRIVATE_KEY" = true ∧
      strHasSubstr polyWalletMsg "RPC_PROVIDER_URL" = true ∧
      strHasSubstr polyWalletMsg "POLYMARKET_API_KEY" = false ∧
      strHasSubstr polyWalletMsg "POLYMARKET_SECRET" = false ∧
      strHasSubstr polyWalletMsg "POLYMARKET_PASSPHRASE" = false) ∧
    (strHasSubstr zoraCredsMsg "ZORA_RPC_URL" = true ∧
      strHasSubstr zoraCredsMsg "ZORA_PRIVATE_KEY" = true) := by
  refine ⟨?_, ?_, ?_, ?_, ?_, ?_⟩
  · intro benv env h
    simp [getPolymarketClient, h]
  · intro benv env h1 h2
    simp [getPolymarketClient, h1, h2]
  · intro pk env h
    simp [getZoraClients, h]
  · exact ⟨by decide, by decide, by decide, by decide, by decide⟩
  · exact ⟨by decide, by decide, by decide, by decide, by decide⟩
  · exact ⟨by decide, by decide⟩

/-- C3 witness: missing API group, missing wallet group (API present),
and missing Zora group, at concrete environments. -/
theorem bootstrap_missing_credentials_witness :
    (falsy envEmpty.POLYMARKET_API_KEY || falsy envEmpty.POLYMARKET_SECRET ||
        falsy envEmpty.POLYMARKET_PASSPHRASE) = true ∧
    getPolymarketClient benvW envEmpty = (Except.error polyApiCredsMsg, 0) ∧
    (falsy envApiOnly.POLYMARKET_API_KEY || falsy envApiOnly.POLYMARKET_SECRET ||
        falsy envApiOnly.POLYMARKET_PASSPHRASE) = false ∧
    (falsy envApiOnly.WALLET_PRIVATE_KEY || falsy envApiOnly.RPC_PROVIDER_URL) = true ∧
    getPolymarketClient benvW envApiOnly = (Except.error polyWalletMsg, 0) ∧
    (falsy envEmpty.ZORA_RPC_URL || falsy envEmpty.ZORA_PRIVATE_KEY) = true ∧
    getZoraClients pkOkW envEmpty = Except.error zoraCredsMsg :=
  ⟨by decide, bootstrap_missing_credentials.1 benvW envEmpty (by decide),
    by decide, by decide,
    bootstrap_missing_credentials.2.1 benvW envApiOnly (by decide) (by decide),
    by decide,
    bootstrap_missing_credentials.2.2.1 pkOkW envEmpty (by decide)⟩

/-- C4: the resolved chain is Base Sepolia exactly when `ZORA_CHAIN`
holds a sepolia value or the lowercased RPC URL contains `sepolia` or
`84532`, and Base mainnet otherwise; a successful bootstrap carries the
so-resolved chain. -/
theorem zora_chain_selection :
    (∀ chainEnv rpcUrl,
      (resolveZoraChain chainEnv rpcUrl = Chain.baseSepolia ↔
        (isSepoliaChainEnv chainEnv = true ∨ isSepoliaRpcUrl rpcUrl = true)) ∧
      ((isSepoliaChainEnv chainEnv = false ∧ isSepoliaRpcUrl rpcUrl = false) →
        resolveZoraChain chainEnv rpcUrl = Chain.base)) ∧
    (∀ pk env c, getZoraClients pk env = Except.ok c →
      c.chain = resolveZoraChain env.ZORA_CHAIN (env.ZORA_RPC_URL.getD "")) := by
  constructor
  · intro chainEnv rpcUrl
    constructor
    · unfold resolveZoraChain
      rcases h1 : isSepoliaChainEnv chainEnv <;> rcases h2 : isSepoliaRpcUrl rpcUrl <;> simp
    · intro ⟨h1, h2⟩
      simp [resolveZoraChain, h1, h2]
  · intro pk env c h
    unfold getZoraClients at h
    by_cases hc : (falsy env.ZORA_RPC_URL || falsy env.ZORA_PRIVATE_KEY) = true
    · rw [if_pos hc] at h
      exact absurd h (by simp)
    · rw [if_neg hc] at h
      cases hpk : pk (env.ZORA_PRIVATE_KEY.getD "") with
      | error e =>
        rw [hpk] at h
        exact absurd h (by simp)
      | ok a =>
        rw [hpk] at h
        injection h with h2
        rw [← h2]

/-- C4 witness: an explicit sepolia override resolves to testnet, a
mainnet URL with no override resolves to mainnet, and a successful
bootstrap carries the resolved chain. -/
theorem zora_chain_selection_witness :
    isSepoliaChainEnv (some "base-sepolia") = true ∧
    resolveZoraChain (some "base-sepolia") "https://mainnet.base.org" = Chain.baseSepolia ∧
    (isSepoliaChainEnv envAllSet.ZORA_CHAIN = false ∧
      isSepoliaRpcUrl (envAllSet.ZORA_RPC_URL.getD "") = false) ∧
    resolveZoraChain envAllSet.ZORA_CHAIN (envAllSet.ZORA_RPC_URL.getD "") = Chain.base ∧
    getZoraClients pkOkW envAllSet = Except.ok ⟨⟨"0xACC"⟩, Chain.base⟩ ∧
    (⟨⟨"0xACC"⟩, Chain.base⟩ : ZoraClients).chain =
      resolveZoraChain envAllSet.ZORA_CHAIN (envAllSet.ZORA_RPC_URL.getD "") :=
  ⟨by decide,
    (zora_chain_selection.1 (some "base-sepolia") "https://mainnet.base.org").1.mpr
      (Or.inl (by decide)),
    ⟨by decide, by decide⟩,
    (zora_chain_selection.1 envAllSet.ZORA_CHAIN (envAllSet.ZORA_RPC_URL.getD "")).2
      ⟨by decide, by decide⟩,
    rfl,
    zora_chain_selection.2 pkOkW envAllSet ⟨⟨"0xACC"⟩, Chain.base⟩ rfl⟩

/-- C5 counterexample: the GET_POLYMARKET_EVENTS handler serializes
the tool result with plain `JSON.stringify`, which throws on a bigint
field.  At a concrete run in which every external call succeeds and
the market tool returns `2 ^ 70` as a bigint, the serialization step
throws, the body fails with the bigint `TypeError`, and the handler
returns false — while `safeStringify` renders the very same value
exactly.  This refutes the claim that serialization cannot throw in
every action handler. -/
theorem poly_serialization_bigint_throws :
    jsonStr bigResultW = Except.error bigintTypeError ∧
    polyEventsBody benvBigW envAllSet stPolyW = Except.error bigintTypeError ∧
    (polyEventsHandler benvBigW envAllSet stPolyW true).result = false ∧
    safeStringify bigResultW = Except.ok "\x7b\"balance\":\"1180591620717411303424\"\x7d" :=
  ⟨rfl, rfl, rfl, rfl⟩

/-- C5 (amended): in the Zora handlers, which serialize through
`safeStringify`, serialization succeeds on every value — bigint fields
are first replaced by their exact decimal strings — and a bigint value
serializes to precisely its decimal representation, losing no
precision. -/
theorem safe_serialization_amended :
    (∀ v, ∃ s, safeStringify v = Except.ok s) ∧
    (∀ n : Int, safeStringify (JsValue.bigint n) = Except.ok (jsQuote (toString n))) :=
  ⟨fun v => jsonStr_rb_ok v, fun _ => rfl⟩

/-- C6: each provider get method is a total function that returns the
one-line wallet-address string when bootstrap succeeds and an
error-describing string when bootstrap fails; no exception reaches the
caller. -/
theorem provider_get_total :
    ∀ (pk : String → Except String Account) (benv : PolyBootstrapEnv) (env : Env),
      ((∃ c, getZoraClients pk env = Except.ok c ∧
          zoraProviderGet pk env = "Zora Wallet Address: " ++ c.account.address) ∨
        (∃ e, getZoraClients pk env = Except.error e ∧
          zoraProviderGet pk env = "Error initializing Zora wallet: " ++ e)) ∧
      ((∃ c, (getPolymarketClient benv env).1 = Except.ok c ∧
          walletProviderGet benv env = "Polymarket Wallet Address: " ++ c.account.address) ∨
        (∃ e, (getPolymarketClient benv env).1 = Except.error e ∧
          walletProviderGet benv env = "Error initializing Polymarket wallet: " ++ e)) := by
  intro pk benv env
  constructor
  · cases hz : getZoraClients pk env with
    | ok c => exact Or.inl ⟨c, rfl, by simp [zoraProviderGet, hz]⟩
    | error e => exact Or.inr ⟨e, rfl, by simp [zoraProviderGet, hz]⟩
  · cases hp : (getPolymarketClient benv env).1 with
    | ok c => exact Or.inl ⟨c, rfl, by simp [walletProviderGet, hp]⟩
    | error e => exact Or.inr ⟨e, rfl, by simp [walletProviderGet, hp]⟩

/-- C7: with any required credential absent, action initialization
returns the empty list (a total function — plugin load cannot fail);
with all credentials present it returns the fixed descriptor list. -/
theorem initialize_actions_config :
    (∀ env, (falsy env.ZORA_RPC_URL || falsy env.ZORA_PRIVATE_KEY) = true →
      initializeZoraActions env = []) ∧
    (∀ env, (falsy env.ZORA_RPC_URL || falsy env.ZORA_PRIVATE_KEY) = false →
      initializeZoraActions env = ["CREATE_COIN", "TRADE_COIN"]) ∧
    (∀ env, (falsy env.POLYMARKET_API_KEY || falsy env.POLYMARKET_SECRET ||
        falsy env.POLYMARKET_PASSPHRASE || falsy env.WALLET_PRIVATE_KEY ||
        falsy env.RPC_PROVIDER_URL) = true →
      initializePolymarketActions env = []) ∧
    (∀ env, (falsy env.POLYMARKET_API_KEY || falsy env.POLYMARKET_SECRET ||
        falsy env.POLYMARKET_PASSPHRASE || falsy env.WALLET_PRIVATE_KEY ||
        falsy env.RPC_PROVIDER_URL) = false →
      initializePolymarketActions env = ["GET_POLYMARKET_EVENTS"]) := by
  refine ⟨?_, ?_, ?_, ?_⟩
  · intro env h
    simp [initializeZoraActions, h]
  · intro env h
    simp only [Bool.or_eq_false_iff] at h
    simp [initializeZoraActions, zoraActionNames, h.1, h.2]
  · intro env h
    simp only [initializePolymarketActions]
    rcases h1 : falsy env.POLYMARKET_API_KEY <;>
      rcases h2 : falsy env.POLYMARKET_SECRET <;>
      rcases h3 : falsy env.POLYMARKET_PASSPHRASE <;>
      rcases h4 : falsy env.WALLET_PRIVATE_KEY <;>
      rcases h5 : falsy env.RPC_PROVIDER_URL <;>
      simp_all
  · intro env h
    simp only [Bool.or_eq_false_iff] at h
    obtain ⟨⟨⟨⟨h1, h2⟩, h3⟩, h4⟩, h5⟩ := h
    simp [initializePolymarketActions, polyActionNames, h1, h2, h3, h4, h5]

/-- C7 witness: empty and full environments on both plugins. -/
theorem initialize_actions_config_witness :
    (falsy envEmpty.ZORA_RPC_URL || falsy envEmpty.ZORA_PRIVATE_KEY) = true ∧
    initializeZoraActions envEmpty = [] ∧
    (falsy envAllSet.ZORA_RPC_URL || falsy envAllSet.ZORA_PRIVATE_KEY) = false ∧
    initializeZoraActions envAllSet = ["CREATE_COIN", "TRADE_COIN"] ∧
    initializePolymarketActions envEmpty = [] ∧
    initializePolymarketActions envAllSet = ["GET_POLYMARKET_EVENTS"] :=
  ⟨by decide, initialize_actions_config.1 envEmpty (by decide), by decide,
    initialize_actions_config.2.1 envAllSet (by decide),
    initialize_actions_config.2.2.1 envEmpty (by decide),
    initialize_actions_config.2.2.2 envAllSet (by decide)⟩

/-- C8: the market-query handler selects the first tool in list order
whose name contains `event` or `market` case-insensitively; when no
tool matches, the lookup fails with a message containing
`tool not found`. -/
theorem event_tool_selection :
    (∀ (pre : List Tool) (t : Tool) (post : List Tool),
      (∀ t2 ∈ pre, eventToolPred t2 = false) → eventToolPred t = true →
      toolLookupStep (pre ++ t :: post) = Except.ok t) ∧
    (∀ tools : List Tool, (∀ t ∈ tools, eventToolPred t = false) →
      toolLookupStep tools = Except.error "Events tool not found" ∧
      strHasSubstr "Events tool not found" "tool not found" = true) := by
  constructor
  · intro pre t post hpre ht
    induction pre with
    | nil =>
      simp only [List.nil_append, toolLookupStep, findEventTool]
      rw [List.find?_cons_of_pos _ ht]
    | cons a l ih =>
      have ha : eventToolPred a = false := hpre a (by simp)
      have hl : ∀ t2 ∈ l, eventToolPred t2 = false := fun t2 h => hpre t2 (by simp [h])
      have ih2 := ih hl
      simp only [List.cons_append, toolLookupStep, findEventTool] at *
      rw [List.find?_cons_of_neg _ (by simp [ha])]
      exact ih2
  · intro tools h
    have hnone : List.find? eventToolPred tools = none := by
      rw [List.find?_eq_none]
      intro x hx
      simp [h x hx]
    exact ⟨by simp [toolLookupStep, findEventTool, hnone], by decide⟩

/-- C8 witness: with a non-matching tool first, the matching tool is
selected; with no matching tool, the lookup fails. -/
theorem event_tool_selection_witness :
    eventToolPred toolPlainW = false ∧
    eventToolPred toolMarketW = true ∧
    toolLookupStep [toolPlainW, toolMarketW] = Except.ok toolMarketW ∧
    toolLookupStep [toolPlainW, toolNamelessW] = Except.error "Events tool not found" :=
  ⟨by decide, by decide,
    event_tool_selection.1 [toolPlainW] toolMarketW []
      (by intro t2 h2
          cases h2 with
          | head => decide
          | tail a b => cases b) (by decide),
    (event_tool_selection.2 [toolPlainW, toolNamelessW]
      (by intro t h
          cases h with
          | head => decide
          | tail a b =>
            cases b with
            | head => decide
            | tail c d => cases d)).1⟩

/-- C9 (implicit): the testnet disjuncts are OR-ed, so whenever the
lowercased RPC URL contains `sepolia` or `84532` the resolved chain is
Base Sepolia regardless of the `ZORA_CHAIN` value — an explicit
mainnet override can never force mainnet over a sepolia RPC hint. -/
theorem sepolia_rpc_overrides_chain_env :
    ∀ (chainEnv : Option String) (rpcUrl : String),
      isSepoliaRpcUrl rpcUrl = true →
      resolveZoraChain chainEnv rpcUrl = Chain.baseSepolia := by
  intro chainEnv rpcUrl h
  simp [resolveZoraChain, h]

/-- C9 witness: `ZORA_CHAIN=base` cannot force mainnet over a sepolia
RPC URL. -/
theorem sepolia_rpc_overrides_chain_env_witness :
    isSepoliaRpcUrl "https://base-sepolia.g.alchemy.com/v2/key" = true ∧
    resolveZoraChain (some "base") "https://base-sepolia.g.alchemy.com/v2/key" =
      Chain.baseSepolia :=
  ⟨by decide,
    sepolia_rpc_overrides_chain_env (some "base")
      "https://base-sepolia.g.alchemy.com/v2/key" (by decide)⟩

/-- C10 (implicit): a supplied non-empty uri whose trimmed form starts
with none of the accepted schemes is silently discarded — metadata
resolution behaves exactly as if no uri had been supplied, and the
CREATE_COIN body (whose SDK call receives only the resolved uri) is
unchanged by replacing the implausible uri with none. -/
theorem implausible_uri_discarded :
    (∀ env params resp now u, params.uri = some u → u ≠ "" →
      jsStartsWith (jsTrim u) "ipfs://" = false →
      jsStartsWith (jsTrim u) "http://" = false →
      jsStartsWith (jsTrim u) "https://" = false →
      ensureMetadataUri env params resp now =
        ensureMetadataUri env { params with uri := none } resp now) ∧
    (∀ pk env st p u, st.genParams = Except.ok p → p.uri = some u → u ≠ "" →
      jsStartsWith (jsTrim u) "ipfs://" = false →
      jsStartsWith (jsTrim u) "http://" = false →
      jsStartsWith (jsTrim u) "https://" = false →
      createCoinBody pk env st =
        createCoinBody pk env { st with genParams := Except.ok { p with uri := none } }) := by
  have part1 : ∀ (env : Env) (params : MetaParams) resp now u, params.uri = some u →
      jsStartsWith (jsTrim u) "ipfs://" = false →
      jsStartsWith (jsTrim u) "http://" = false →
      jsStartsWith (jsTrim u) "https://" = false →
      ensureMetadataUri env params resp now =
        ensureMetadataUri env { params with uri := none } resp now := by
    intro env params resp now u hu h1 h2 h3
    have hp : plausibleUri (params.uri.map jsTrim) = false := by
      rw [hu]
      simp [plausibleUri, h1, h2, h3]
    have hp2 : plausibleUri (none : Option String) = false := rfl
    simp [ensureMetadataUri, hp, hp2]
  constructor
  · intro env params resp now u hu hne h1 h2 h3
    exact part1 env params resp now u hu h1 h2 h3
  · intro pk env st p u hgen hu hne h1 h2 h3
    have heq := part1 env ⟨p.name, p.symbol, p.uri, p.image, p.description⟩
      st.pinResponse st.now u hu h1 h2 h3
    simp only [createCoinBody, hgen, exceptOkBind]
    rw [heq]

/-- C10 witness: the implausible uri `notaurl` behaves as an absent
uri, at the metadata-resolution level and at the handler-body level. -/
theorem implausible_uri_discarded_witness :
    ("notaurl" : String) ≠ "" ∧
    jsStartsWith (jsTrim "notaurl") "ipfs://" = false ∧
    ensureMetadataUri envJwtW ⟨"N", "S", some "notaurl", none, none⟩ pinRespOkW 0 =
      ensureMetadataUri envJwtW ⟨"N", "S", none, none, none⟩ pinRespOkW 0 ∧
    createCoinBody pkOkW envJwtW stImplausibleW =
      createCoinBody pkOkW envJwtW
        { stImplausibleW with genParams := Except.ok { paramsImplausibleW with uri := none } } :=
  ⟨by decide, by decide,
    implausible_uri_discarded.1 envJwtW ⟨"N", "S", some "notaurl", none, none⟩ pinRespOkW 0
      "notaurl" rfl (by decide) (by decide) (by decide) (by decide),
    implausible_uri_discarded.2 pkOkW envJwtW stImplausibleW paramsImplausibleW
      "notaurl" rfl rfl (by decide) (by decide) (by decide) (by decide)⟩

end ZoraPlugin
